import Mathlib

/-!
Verification of the chunked tabular extraction pipeline of the parsera-customized
repository (src/parsera/engine/chunks_extractor.py together with the base class in
src/parsera/engine/simple_extractor.py).

Modelling choices, written as a shallow embedding of the Python source:

* The generative model call (`self.model.ainvoke`) composed with the JSON output
  parsing step (`JsonOutputParser().parse`) is abstracted as an oracle function from
  the constructed prompt messages to either a parsed record list or a failure; both
  pieces are external collaborators of the core.
* String formatting of the fixed prompt-template class attributes is represented
  symbolically: each `HumanMsg` constructor records which template class attribute
  was `.format`-ed and with which substituted argument strings, so two calls built
  from different templates are distinguishable exactly as they are in the source.
* `json.dumps` on record lists and on the attribute dictionary is embedded as a
  concrete serializer (`jsonDumpsList`, `jsonDumpsSchema`) using json.dumps's
  default separators.
* The text splitter (`RecursiveCharacterTextSplitter.create_documents`) is an
  external library; `run` is parameterized by the chunk list it produces.
* Machine-visible effects of one `run` call are collected as an `Event` trace
  (the split call plus every model call, in program order), and the instance
  attribute `self.chunks_data` is threaded as an explicit `RunState`.
-/

deriving instance DecidableEq for Except

namespace Parsera

/-- JSON field value as produced by the extractor for one field: null or a scalar
string. -/
abbrev FieldValue := Option String

/-- Record: one parsed JSON object, a mapping from field name to field value. -/
abbrev Record := List (String × FieldValue)

/-- Attribute schema: the `attributes: dict[str, str]` argument of `run`, mapping
attribute name to its natural-language description.  `Option` distinguishes a
Python `None` argument from an actual dictionary. -/
abbrev Schema := List (String × String)

/-- Python `", ".join(items)`, the element separator used by `json.dumps`. -/
def joinComma : List String → String
  | [] => ""
  | [s] => s
  | s :: t :: ts => s ++ ", " ++ joinComma (t :: ts)

/-- Serialization of one field value, as `json.dumps` renders it. -/
def dumpValue : FieldValue → String
  | none => "null"
  | some s => "\"" ++ s ++ "\""

/-- Serialization of one key/value entry of a record, with json.dumps's default
`": "` key separator. -/
def dumpField : String × FieldValue → String
  | (k, v) => "\"" ++ k ++ "\": " ++ dumpValue v

/-- Serialization of one record object, `json.dumps` style. -/
def dumpRecord (r : Record) : String :=
  "\x7b" ++ joinComma (r.map dumpField) ++ "\x7d"

/-- Embedding of `json.dumps(previous_data)` for a list of records. -/
def jsonDumpsList (l : List Record) : String :=
  "[" ++ joinComma (l.map dumpRecord) ++ "]"

/-- Embedding of `elements = json.dumps(attributes)`; Python `None` serializes to
the string `null`. -/
def jsonDumpsSchema : Option Schema → String
  | none => "null"
  | some s =>
      "\x7b" ++ joinComma (s.map (fun kv => "\"" ++ kv.1 ++ "\": \"" ++ kv.2 ++ "\"")) ++ "\x7d"

/-- Class attribute `ChunksTabularExtractor.overlap_factor = 3`. -/
def overlap_factor : Nat := 3

/-- Embedding of Python `math.ceil(a / b)` for natural `a` and positive natural
`b`. -/
def mathCeilDiv (a b : Nat) : Nat := (a + b - 1) / b

/-- Python truthiness test `not previous_data` for a `list[dict] | None` value:
`None` and the empty list are falsy. -/
def pyFalsy : Option (List Record) → Bool
  | none => true
  | some l => l.isEmpty

/-- The system message of a model call, recording which class attribute it was
built from: `SystemMessage(self.system_prompt)` for extraction calls,
`SystemMessage(self.system_merge_prompt)` (the fixed `SYSTEM_MERGE_PROMPT_TEMPLATE`
class constant) for the merge call. -/
inductive SystemMsg where
  | fromSystemPrompt (content : Option String)
  | fromSystemMergePrompt
deriving DecidableEq

/-- The human message of a model call, recording which prompt-template class
attribute was `.format`-ed and with which substituted strings:
`self.prompt_template.format(markdown=..., elements=...)`,
`self.append_prompt_template.format(markdown=..., elements=..., previous_data=...)`,
or `self.prompt_merge_template.format(elements=..., jsons_list=...)`. -/
inductive HumanMsg where
  | fromPromptTemplate (markdown elements : String)
  | fromAppendPromptTemplate (markdown elements previous_data : String)
  | fromPromptMergeTemplate (elements jsons_list : String)
deriving DecidableEq

/-- One model invocation: the `[SystemMessage(...), HumanMessage(...)]` pair passed
to `self.model.ainvoke`. -/
structure ModelCall where
  system : SystemMsg
  human : HumanMsg
deriving DecidableEq

/-- Externally visible events of one `run` call, in program order: the splitter
invocation `self.text_splitter.create_documents([content])` and each model call. -/
inductive Event where
  | split (content : String)
  | model (call : ModelCall)
deriving DecidableEq

/-- Failures a `run` call can surface: the explicit `ValueError`s raised by `run`,
the `IndexError` of `chunks[0]` on an empty chunk list, and failures of the opaque
model call or of output parsing. -/
inductive Err where
  | valueError (msg : String)
  | indexError
  | modelError (msg : String)
deriving DecidableEq

/-- Whether a human message was built from `prompt_merge_template`. -/
def HumanMsg.isMergeMsg : HumanMsg → Bool
  | .fromPromptMergeTemplate _ _ => true
  | _ => false

/-- Whether an event is the Cross-Window Merger's model call. -/
def Event.isMergeCall : Event → Bool
  | .split _ => false
  | .model c => c.human.isMergeMsg

/-- Whether an event is a model call at all (extraction or merge). -/
def Event.isModelCall : Event → Bool
  | .split _ => false
  | .model _ => true

/-- The prompt configuration of an extractor instance: the `system_prompt` and
`prompt_template` class attributes whose absence (`None`) `run` checks for.  On
`ChunksTabularExtractor` itself both are inherited non-`None` constants. -/
structure Config where
  system_prompt : Option String
  prompt_template : Option String
deriving DecidableEq

/-- The mutable instance state relevant across calls: the `self.chunks_data`
attribute. -/
structure RunState where
  chunks_data : Option (List (List Record))
deriving DecidableEq

/-- State established by `__init__`: `self.chunks_data = None`. -/
def initState : RunState := { chunks_data := none }

/-- Configuration of the `RecursiveCharacterTextSplitter` as built in `__init__`:
`chunk_size`, `chunk_overlap = chunk_size // self.overlap_factor`, and
`length_function = token_counter`. -/
structure TextSplitterConfig where
  chunk_size : Nat
  chunk_overlap : Nat
  length_function : String → Nat

/-- Embedding of the `__init__` construction of `self.text_splitter`, given the
already-resolved token counter (the `None` default is replaced by the external
tiktoken `o200k_base` counter before this point). -/
def initTextSplitter (chunk_size : Nat) (token_counter : String → Nat) :
    TextSplitterConfig :=
  { chunk_size := chunk_size
    chunk_overlap := chunk_size / overlap_factor
    length_function := token_counter }

/-- The human message built inside `extract`: the `if not previous_data` branch
uses `prompt_template`; otherwise the guard `len(previous_data) > 0` selects
between the sliced tail `previous_data[-cutoff:]` with
`cutoff = max(1, math.ceil(len(previous_data) / self.overlap_factor))` and the
literal `"[]"` tail.  The `isinstance` list conversion in the source is the
identity under the declared `list[dict] | None` typing. -/
def buildHumanMsg (markdown elements : String) (previous_data : Option (List Record)) :
    HumanMsg :=
  if pyFalsy previous_data then
    .fromPromptTemplate markdown elements
  else
    let pd := previous_data.getD []
    if 0 < pd.length then
      let cutoff := max 1 (mathCeilDiv pd.length overlap_factor)
      .fromAppendPromptTemplate markdown elements
        (jsonDumpsList (pd.drop (pd.length - cutoff)))
    else
      .fromAppendPromptTemplate markdown elements "[]"

/-- The full model call constructed by one `extract` invocation. -/
def extractCallOf (cfg : Config) (markdown : String) (attributes : Option Schema)
    (previous_data : Option (List Record)) : ModelCall :=
  { system := .fromSystemPrompt cfg.system_prompt
    human := buildHumanMsg markdown (jsonDumpsSchema attributes) previous_data }

/-- Embedding of `ChunksTabularExtractor.extract`: build the messages, make one
model call, parse the output.  Returns the parsed result (or the propagated
failure) together with the event of the call made. -/
def extract (oracle : ModelCall → Except Err (List Record)) (cfg : Config)
    (markdown : String) (attributes : Option Schema)
    (previous_data : Option (List Record)) :
    Except Err (List Record) × Event :=
  (oracle (extractCallOf cfg markdown attributes previous_data),
   .model (extractCallOf cfg markdown attributes previous_data))

/-- The `jsons_list` string accumulated by `merge_all_data`:
`json_list += "``` \n" + json.dumps(data) + "\n ```\n"` over all partials. -/
def jsonsListString (all_data : List (List Record)) : String :=
  all_data.foldl (fun acc d => acc ++ "``` \n" ++ jsonDumpsList d ++ "\n ```\n") ""

/-- The model call constructed by `merge_all_data`. -/
def mergeCallOf (all_data : List (List Record)) (attributes : Option Schema) :
    ModelCall :=
  { system := .fromSystemMergePrompt
    human := .fromPromptMergeTemplate (jsonDumpsSchema attributes)
      (jsonsListString all_data) }

/-- Embedding of `ChunksTabularExtractor.merge_all_data`: one model call over the
serialized concatenation of every partial result. -/
def merge_all_data (oracle : ModelCall → Except Err (List Record))
    (all_data : List (List Record)) (attributes : Option Schema) :
    Except Err (List Record) × Event :=
  (oracle (mergeCallOf all_data attributes), .model (mergeCallOf all_data attributes))

/-- Embedding of the `for _, element in enumerate(chunks)` loop of `run`: thread
`chunk_data` from each extraction into the next call's `previous_data`, appending
every result to `self.chunks_data` (the `acc` argument).  Returns the loop outcome,
the final accumulated `chunks_data` (also on failure, matching the appends already
performed before an exception), and the model-call events in order. -/
def extractLoop (oracle : ModelCall → Except Err (List Record)) (cfg : Config)
    (attributes : Option Schema) :
    List String → Option (List Record) → List (List Record) →
      Except Err (List (List Record)) × List (List Record) × List Event
  | [], _, acc => (.ok acc, acc, [])
  | c :: cs, prev, acc =>
    match extract oracle cfg c attributes prev with
    | (.error err, ev) => (.error err, acc, [ev])
    | (.ok data, ev) =>
      let r := extractLoop oracle cfg attributes cs (some data) (acc ++ [data])
      (r.1, r.2.1, ev :: r.2.2)

/-- Embedding of `ChunksTabularExtractor.run`: validate the two prompt attributes,
split the content, then either the multi-chunk loop followed by one merge call, or
the single-chunk path `self.extract(markdown=chunks[0], attributes=attributes)`
(which raises `IndexError` on an empty chunk list).  The chunk-size printing loop
is effect-only and not modelled.  Returns the result, the event trace, and the
post-call instance state. -/
def run (oracle : ModelCall → Except Err (List Record))
    (splitter : String → List String) (cfg : Config) (st : RunState)
    (content : String) (attributes : Option Schema) :
    Except Err (List Record) × List Event × RunState :=
  if cfg.system_prompt = none then
    (.error (.valueError "system_prompt is not defined for this extractor"), [], st)
  else if cfg.prompt_template = none then
    (.error (.valueError "prompt_template is not defined for this extractor"), [], st)
  else
    let chunks := splitter content
    if 1 < chunks.length then
      match extractLoop oracle cfg attributes chunks none [] with
      | (.error e, cd, levs) => (.error e, .split content :: levs, ⟨some cd⟩)
      | (.ok all_data, cd, levs) =>
        match merge_all_data oracle all_data attributes with
        | (mres, mev) => (mres, .split content :: (levs ++ [mev]), ⟨some cd⟩)
    else
      match chunks[0]? with
      | none => (.error .indexError, [.split content], st)
      | some c0 =>
        match extract oracle cfg c0 attributes none with
        | (res, ev) => (res, [.split content, ev], st)

/-- Specification-side description (from the spec's SequentialExtract state) of a
successful extraction chain: window i+1's call carries a continuation derived from
exactly window i's result, the first window carries none, and `results` collects
the per-window outputs in window order. -/
def chainSpec (oracle : ModelCall → Except Err (List Record)) (cfg : Config)
    (attributes : Option Schema) :
    List String → Option (List Record) → List (List Record) → Prop
  | [], _, results => results = []
  | c :: cs, prev, results =>
    ∃ r rs, results = r :: rs ∧
      oracle (extractCallOf cfg c attributes prev) = .ok r ∧
      chainSpec oracle cfg attributes cs (some r) rs

/-- The event list a successful extraction chain with the given per-window results
produces, in window order. -/
def chainEvents (cfg : Config) (attributes : Option Schema) :
    List String → Option (List Record) → List (List Record) → List Event
  | c :: cs, prev, r :: rs =>
    .model (extractCallOf cfg c attributes prev) ::
      chainEvents cfg attributes cs (some r) rs
  | _, _, _ => []

/-! Concrete fixtures used by witness and counterexample theorems. -/

/-- Sample record with one string-valued field. -/
def recA : Record := [("name", some "a")]

/-- Second sample record. -/
def recB : Record := [("name", some "b")]

/-- Third sample record. -/
def recC : Record := [("name", some "c")]

/-- Fourth sample record. -/
def recD : Record := [("name", some "d")]

/-- Sample previous partial result of length four. -/
def pd4 : List Record := [recA, recB, recC, recD]

/-- Sample attribute schema. -/
def schema0 : Schema := [("name", "extract the product name")]

/-- Prompt configuration with both class attributes present, as on
`ChunksTabularExtractor` (which inherits non-`None` constants). -/
def cfg0 : Config := { system_prompt := some "sys", prompt_template := some "tmpl" }

/-- Prompt configuration whose `system_prompt` is `None`. -/
def cfgNoSys : Config := { system_prompt := none, prompt_template := some "tmpl" }

/-- Deterministic stub oracle: every model call parses to `[recA]`. -/
def stubOracle : ModelCall → Except Err (List Record) := fun _ => .ok [recA]

/-- Stub oracle that fails exactly on the extraction call for window text `w2`
(which, on a run whose first window returned a non-empty result, is the second
window's call) and succeeds everywhere else. -/
def failOracle : ModelCall → Except Err (List Record) := fun c =>
  match c.human with
  | .fromAppendPromptTemplate "w2" _ _ => .error (.modelError "boom")
  | _ => .ok [recA]

/-- Stub splitter producing no chunks (as `create_documents` does on empty
content). -/
def splitter0 : String → List String := fun _ => []

/-- Stub splitter producing exactly one chunk. -/
def splitter1 : String → List String := fun _ => ["w0"]

/-- Stub splitter producing two chunks. -/
def splitter2 : String → List String := fun _ => ["w1", "w2"]

/-- Stub splitter producing three chunks. -/
def splitter3 : String → List String := fun _ => ["w1", "w2", "w3"]

/-! Helper lemmas. -/

/-- The first element's length bounds the length of a comma join. -/
theorem le_length_joinComma (s : String) (ss : List String) :
    s.length ≤ (joinComma (s :: ss)).length := by
  cases ss with
  | nil => simp [joinComma]
  | cons t ts => simp [joinComma, String.length_append]; omega

/-- A serialized record object has length at least two (its braces). -/
theorem two_le_length_dumpRecord (r : Record) : 2 ≤ (dumpRecord r).length := by
  have h1 : ("\x7b" : String).length = 1 := by decide
  have h2 : ("\x7d" : String).length = 1 := by decide
  simp [dumpRecord, String.length_append, h1, h2]

/-- The serialization of a non-empty record list is never the string `[]`. -/
theorem jsonDumpsList_ne_emptyBrackets (l : List Record) (h : l ≠ []) :
    jsonDumpsList l ≠ "[]" := by
  cases l with
  | nil => exact absurd rfl h
  | cons r rs =>
    intro he
    have hlen := congrArg String.length he
    have h1 : 2 ≤ (dumpRecord r).length := two_le_length_dumpRecord r
    have h2 : (dumpRecord r).length ≤ (joinComma (dumpRecord r :: rs.map dumpRecord)).length :=
      le_length_joinComma _ _
    have h3 : ("[" : String).length = 1 := by decide
    have h4 : ("]" : String).length = 1 := by decide
    have h5 : ("[]" : String).length = 2 := by decide
    simp [jsonDumpsList, String.length_append, h3, h4, h5] at hlen
    omega

/-- A model call built by `extract` is never the merge call. -/
theorem extractCall_not_merge (cfg : Config) (md : String) (attrs : Option Schema)
    (pd : Option (List Record)) :
    (Event.model (extractCallOf cfg md attrs pd)).isMergeCall = false := by
  simp only [Event.isMergeCall, extractCallOf]
  unfold buildHumanMsg
  split
  · rfl
  · dsimp only
    split <;> rfl

/-- Every event emitted by the extraction loop is an extraction model call, never
the merge call. -/
theorem extractLoop_events_not_merge (oracle : ModelCall → Except Err (List Record))
    (cfg : Config) (attributes : Option Schema) :
    ∀ (cs : List String) (prev : Option (List Record)) (acc : List (List Record)),
      ∀ e ∈ (extractLoop oracle cfg attributes cs prev acc).2.2, e.isMergeCall = false := by
  intro cs
  induction cs with
  | nil => intro prev acc e he; simp [extractLoop] at he
  | cons c cs ih =>
    intro prev acc e he
    rw [extractLoop, extract] at he
    cases ho : oracle (extractCallOf cfg c attributes prev) with
    | error err =>
      rw [ho] at he
      simp at he
      rw [he]
      exact extractCall_not_merge cfg c attributes prev
    | ok data =>
      rw [ho] at he
      simp at he
      rcases he with he | he
      · rw [he]; exact extractCall_not_merge cfg c attributes prev
      · exact ih (some data) (acc ++ [data]) e he

/-- A successful chain has one result per window. -/
theorem chainSpec_length (oracle : ModelCall → Except Err (List Record)) (cfg : Config)
    (attributes : Option Schema) :
    ∀ (cs : List String) (prev : Option (List Record)) (results : List (List Record)),
      chainSpec oracle cfg attributes cs prev results → results.length = cs.length := by
  intro cs
  induction cs with
  | nil => intro prev results h; rw [chainSpec] at h; simp [h]
  | cons c cs ih =>
    intro prev results h
    rw [chainSpec] at h
    obtain ⟨r, rs, rfl, -, hrec⟩ := h
    simp [ih (some r) rs hrec]

/-- Characterization of a successful extraction loop: the accumulated data extends
the accumulator with the chain's per-window results, the loop's returned
`chunks_data` equals it, and the events are exactly the chain's calls in window
order. -/
theorem extractLoop_ok (oracle : ModelCall → Except Err (List Record)) (cfg : Config)
    (attributes : Option Schema) :
    ∀ (cs : List String) (prev : Option (List Record))
      (acc all cd : List (List Record)) (evs : List Event),
      extractLoop oracle cfg attributes cs prev acc = (.ok all, cd, evs) →
      ∃ rs, all = acc ++ rs ∧ cd = all ∧
        chainSpec oracle cfg attributes cs prev rs ∧
        evs = chainEvents cfg attributes cs prev rs := by
  intro cs
  induction cs with
  | nil =>
    intro prev acc all cd evs h
    rw [extractLoop] at h
    simp only [Prod.mk.injEq, Except.ok.injEq] at h
    obtain ⟨rfl, rfl, rfl⟩ := h
    exact ⟨[], by simp, rfl, rfl, rfl⟩
  | cons c cs ih =>
    intro prev acc all cd evs h
    rw [extractLoop, extract] at h
    cases ho : oracle (extractCallOf cfg c attributes prev) with
    | error err => rw [ho] at h; simp at h
    | ok data =>
      rw [ho] at h
      dsimp only at h
      rcases hr : extractLoop oracle cfg attributes cs (some data) (acc ++ [data]) with
        ⟨res, cd', evs'⟩
      rw [hr] at h
      simp only [Prod.mk.injEq] at h
      obtain ⟨h1, h2, h3⟩ := h
      obtain ⟨rs, hall, hcd, hspec, hevs⟩ :=
        ih (some data) (acc ++ [data]) all cd' evs' (by rw [hr, h1])
      refine ⟨data :: rs, by simpa using hall, by rw [← h2, hcd], ?_, ?_⟩
      · exact ⟨data, rs, rfl, ho, hspec⟩
      · rw [← h3, hevs]
        rfl

/-! Claim theorems. -/

/-- C6: the splitter is configured with `chunk_overlap = chunk_size // 3`: for
every `chunk_size` passed to the constructor, the configured overlap equals
`floor(chunk_size / overlap_factor)` with `overlap_factor = 3`, and the
`length_function` bounding the windows is the very token counter supplied. -/
theorem c6_splitter_overlap_config (chunk_size : Nat) (token_counter : String → Nat) :
    (initTextSplitter chunk_size token_counter).chunk_overlap = chunk_size / 3 ∧
    (initTextSplitter chunk_size token_counter).chunk_overlap
      = chunk_size / overlap_factor ∧
    (initTextSplitter chunk_size token_counter).length_function = token_counter ∧
    overlap_factor = 3 :=
  ⟨rfl, rfl, rfl, rfl⟩

/-- C1 (counterexample): for a previous PartialResult of length 1 the claim's
"never the full PartialResult" fails: the continuation payload inserted into the
next window's prompt is the serialization of the entire previous PartialResult. -/
theorem c1_counterexample_singleton_tail_is_full :
    buildHumanMsg "md" "el" (some [recA]) =
      .fromAppendPromptTemplate "md" "el" (jsonDumpsList [recA]) := by
  decide

/-- C1 (amended): for a non-empty previous PartialResult of length L, the
continuation payload passed to the next window's extraction call is exactly the
serialization of the last `max 1 (ceil (L / 3))` records (3 = `overlap_factor`);
this tail is a proper suffix — never the full PartialResult — whenever L ≥ 2,
while for L = 1 it is the whole single-record PartialResult. -/
theorem c1_continuation_tail_slice (markdown elements : String) (pd : List Record)
    (h : pd ≠ []) :
    ∃ front tail,
      pd = front ++ tail ∧
      tail.length = max 1 (mathCeilDiv pd.length overlap_factor) ∧
      buildHumanMsg markdown elements (some pd) =
        .fromAppendPromptTemplate markdown elements (jsonDumpsList tail) ∧
      (2 ≤ pd.length → tail.length < pd.length) := by
  have hpos : 0 < pd.length := List.length_pos.mpr h
  have hle : max 1 (mathCeilDiv pd.length overlap_factor) ≤ pd.length := by
    unfold mathCeilDiv overlap_factor
    omega
  refine ⟨pd.take (pd.length - max 1 (mathCeilDiv pd.length overlap_factor)),
    pd.drop (pd.length - max 1 (mathCeilDiv pd.length overlap_factor)),
    (List.take_append_drop _ _).symm, ?_, ?_, ?_⟩
  · rw [List.length_drop]
    omega
  · unfold buildHumanMsg pyFalsy
    cases pd with
    | nil => exact absurd rfl h
    | cons a l => simp
  · intro h2
    rw [List.length_drop]
    unfold mathCeilDiv overlap_factor
    omega

/-- C1 (witness): instantiation at a concrete four-record PartialResult, whose
continuation tail is its last two records. -/
theorem c1_continuation_tail_slice_witness :
    pd4 ≠ [] ∧
    ∃ front tail,
      pd4 = front ++ tail ∧
      tail.length = max 1 (mathCeilDiv pd4.length overlap_factor) ∧
      buildHumanMsg "md" "el" (some pd4) =
        .fromAppendPromptTemplate "md" "el" (jsonDumpsList tail) ∧
      (2 ≤ pd4.length → tail.length < pd4.length) :=
  ⟨by decide, c1_continuation_tail_slice "md" "el" pd4 (by decide)⟩

/-- C10: an empty previous PartialResult is treated as no continuation at all —
`extract` builds the fresh `prompt_template` message — and no reachable input of
`extract` ever produces an append-template message whose inserted tail is the
empty-list serialization `[]`: that branch of the source is dead under the
declared `list[dict] | None` typing. -/
theorem c10_empty_previous_no_continuation (markdown elements : String) :
    buildHumanMsg markdown elements (some ([] : List Record)) =
      .fromPromptTemplate markdown elements ∧
    ∀ (pd : Option (List Record)) (s : String),
      buildHumanMsg markdown elements pd = .fromAppendPromptTemplate markdown elements s →
      s ≠ "[]" := by
  constructor
  · rfl
  · intro pd s hmsg
    cases pd with
    | none => exact absurd hmsg (by simp [buildHumanMsg, pyFalsy])
    | some l =>
      cases l with
      | nil => exact absurd hmsg (by simp [buildHumanMsg, pyFalsy])
      | cons a t =>
        have hs : s = jsonDumpsList ((a :: t).drop ((a :: t).length -
            max 1 (mathCeilDiv (a :: t).length overlap_factor))) := by
          rw [buildHumanMsg] at hmsg
          simp [pyFalsy] at hmsg
          exact hmsg.symm
        have hcut : max 1 (mathCeilDiv (a :: t).length overlap_factor) ≤ (a :: t).length := by
          unfold mathCeilDiv overlap_factor
          simp
          omega
        have hne : (a :: t).drop ((a :: t).length -
            max 1 (mathCeilDiv (a :: t).length overlap_factor)) ≠ [] := by
          intro hnil
          have := congrArg List.length hnil
          rw [List.length_drop] at this
          simp at this
          omega
        rw [hs]
        exact jsonDumpsList_ne_emptyBrackets _ hne

/-- C10 (witness): instantiation at a concrete two-record previous result, whose
inserted tail serializes its last record and is not the string for the empty
list. -/
theorem c10_empty_previous_no_continuation_witness :
    buildHumanMsg "md" "el" (some [recA, recB]) =
      .fromAppendPromptTemplate "md" "el" (jsonDumpsList [recB]) ∧
    jsonDumpsList [recB] ≠ "[]" :=
  ⟨by decide,
   (c10_empty_previous_no_continuation "md" "el").2 (some [recA, recB])
     (jsonDumpsList [recB]) (by decide)⟩

/-- C9: when the splitter produces zero chunks, `run` takes the single-window
branch, indexing `chunks[0]` fails with an out-of-bounds error, and the trace
shows no model call was ever issued. -/
theorem c9_zero_windows_index_error (oracle : ModelCall → Except Err (List Record))
    (splitter : String → List String) (cfg : Config) (st : RunState)
    (content : String) (attributes : Option Schema)
    (hsys : ¬cfg.system_prompt = none) (hpt : ¬cfg.prompt_template = none)
    (hempty : splitter content = []) :
    run oracle splitter cfg st content attributes =
      (.error .indexError, [.split content], st) ∧
    ∀ e ∈ [Event.split content], e.isModelCall = false := by
  constructor
  · rw [run, if_neg hsys, if_neg hpt]
    simp [hempty]
  · intro e he
    simp at he
    rw [he]
    rfl

/-- C9 (witness): instantiation with a splitter returning no chunks. -/
theorem c9_zero_windows_index_error_witness :
    (¬cfg0.system_prompt = none) ∧ (¬cfg0.prompt_template = none) ∧
    splitter0 "doc" = [] ∧
    (run stubOracle splitter0 cfg0 initState "doc" (some schema0) =
        (.error .indexError, [.split "doc"], initState) ∧
      ∀ e ∈ [Event.split "doc"], e.isModelCall = false) :=
  ⟨by decide, by decide, rfl,
   c9_zero_windows_index_error stubOracle splitter0 cfg0 initState "doc" (some schema0)
     (by decide) (by decide) rfl⟩

/-- C5 (counterexample): the attribute schema is not validated.  A run whose
`attributes` is Python `None` (schema absent) with both prompt attributes present
does not fail with a configuration error: it succeeds and issues a model call
carrying `null` as its elements string. -/
theorem c5_counterexample_absent_schema_not_checked :
    (run stubOracle splitter1 cfg0 initState "doc" none).1 = .ok [recA] ∧
    ((run stubOracle splitter1 cfg0 initState "doc" none).2.1.filter
        Event.isModelCall).length = 1 := by
  decide

/-- C5 (amended): whenever a required prompt attribute (`system_prompt` or
`prompt_template`) is absent, `run` fails with a `ValueError` configuration error
and its trace is empty — before splitting begins and before any model call; the
attribute schema itself is not validated. -/
theorem c5_missing_prompt_fails_fast (oracle : ModelCall → Except Err (List Record))
    (splitter : String → List String) (cfg : Config) (st : RunState)
    (content : String) (attributes : Option Schema)
    (h : cfg.system_prompt = none ∨ cfg.prompt_template = none) :
    ∃ msg, run oracle splitter cfg st content attributes =
      (.error (.valueError msg), [], st) := by
  by_cases h1 : cfg.system_prompt = none
  · exact ⟨_, by rw [run, if_pos h1]⟩
  · rcases h with h | h2
    · exact absurd h h1
    · exact ⟨_, by rw [run, if_neg h1, if_pos h2]⟩

/-- C5 (witness): instantiation with an extractor whose `system_prompt` is
`None`. -/
theorem c5_missing_prompt_fails_fast_witness :
    (cfgNoSys.system_prompt = none ∨ cfgNoSys.prompt_template = none) ∧
    ∃ msg, run stubOracle splitter1 cfgNoSys initState "doc" (some schema0) =
      (.error (.valueError msg), [], initState) :=
  ⟨Or.inl rfl,
   c5_missing_prompt_fails_fast stubOracle splitter1 cfgNoSys initState "doc"
     (some schema0) (Or.inl rfl)⟩

/-- C2: on a run whose splitter produces exactly one window, `run` issues exactly
one extraction call, built with no continuation (`previous_data = None`), returns
that call's parsed output directly, and the trace contains no merge call. -/
theorem c2_single_window_direct (oracle : ModelCall → Except Err (List Record))
    (splitter : String → List String) (cfg : Config) (st : RunState)
    (content c0 : String) (attributes : Option Schema)
    (hsys : ¬cfg.system_prompt = none) (hpt : ¬cfg.prompt_template = none)
    (hone : splitter content = [c0]) :
    run oracle splitter cfg st content attributes =
      (oracle (extractCallOf cfg c0 attributes none),
       [.split content, .model (extractCallOf cfg c0 attributes none)], st) ∧
    ∀ e ∈ (run oracle splitter cfg st content attributes).2.1,
      e.isMergeCall = false := by
  have hrun : run oracle splitter cfg st content attributes =
      (oracle (extractCallOf cfg c0 attributes none),
       [.split content, .model (extractCallOf cfg c0 attributes none)], st) := by
    rw [run, if_neg hsys, if_neg hpt]
    simp [hone, extract]
  refine ⟨hrun, ?_⟩
  rw [hrun]
  intro e he
  simp at he
  rcases he with he | he
  · rw [he]; rfl
  · rw [he]; exact extractCall_not_merge cfg c0 attributes none

/-- C2 (witness): instantiation with a one-chunk splitter and a deterministic stub
oracle. -/
theorem c2_single_window_direct_witness :
    (¬cfg0.system_prompt = none) ∧ (¬cfg0.prompt_template = none) ∧
    splitter1 "doc" = ["w0"] ∧
    (run stubOracle splitter1 cfg0 initState "doc" (some schema0) =
        (stubOracle (extractCallOf cfg0 "w0" (some schema0) none),
         [.split "doc", .model (extractCallOf cfg0 "w0" (some schema0) none)],
         initState) ∧
      ∀ e ∈ (run stubOracle splitter1 cfg0 initState "doc" (some schema0)).2.1,
        e.isMergeCall = false) :=
  ⟨by decide, by decide, rfl,
   c2_single_window_direct stubOracle splitter1 cfg0 initState "doc" "w0"
     (some schema0) (by decide) (by decide) rfl⟩

/-- C7 (counterexample): the core is not stateless across runs — after a
successful two-window run starting from the `__init__` state, the accumulated
PartialResults persist on the extractor object in `self.chunks_data`. -/
theorem c7_counterexample_chunks_data_persists :
    (run stubOracle splitter2 cfg0 initState "doc" (some schema0)).1 = .ok [recA] ∧
    (run stubOracle splitter2 cfg0 initState "doc" (some schema0)).2.2 ≠ initState ∧
    (run stubOracle splitter2 cfg0 initState "doc" (some schema0)).2.2.chunks_data =
      some [[recA], [recA]] := by
  decide

/-- C7 (amended): `run` stores the accumulated PartialResults in the instance
attribute `chunks_data`, which persists after the call returns; nevertheless a
run's result and its call trace are independent of whatever `chunks_data` a
previous run left behind, because multi-window runs reset the attribute before
using it and single-window runs never read it. -/
theorem c7_run_independent_of_prior_state
    (oracle : ModelCall → Except Err (List Record)) (splitter : String → List String)
    (cfg : Config) (content : String) (attributes : Option Schema)
    (st₁ st₂ : RunState) :
    (run oracle splitter cfg st₁ content attributes).1 =
      (run oracle splitter cfg st₂ content attributes).1 ∧
    (run oracle splitter cfg st₁ content attributes).2.1 =
      (run oracle splitter cfg st₂ content attributes).2.1 := by
  unfold run
  by_cases h1 : cfg.system_prompt = none
  · simp [h1]
  · by_cases h2 : cfg.prompt_template = none
    · simp [h1, h2]
    · simp only [if_neg h1, if_neg h2]
      by_cases h3 : 1 < (splitter content).length
      · simp [h3]
      · simp only [if_neg h3]
        cases h4 : (splitter content)[0]? <;> simp [h4]

/-- C4: if the extraction loop of a multi-window run fails on some window, `run`
propagates exactly that failure, returns no result, performs no further extraction
call beyond the failing one, and never makes the merge call. -/
theorem c4_extraction_failure_aborts_run
    (oracle : ModelCall → Except Err (List Record)) (splitter : String → List String)
    (cfg : Config) (st : RunState) (content : String) (attributes : Option Schema)
    (err : Err) (cd : List (List Record)) (levs : List Event)
    (hsys : ¬cfg.system_prompt = none) (hpt : ¬cfg.prompt_template = none)
    (hlen : 1 < (splitter content).length)
    (hloop : extractLoop oracle cfg attributes (splitter content) none [] =
      (.error err, cd, levs)) :
    run oracle splitter cfg st content attributes =
      (.error err, .split content :: levs, ⟨some cd⟩) ∧
    ∀ e ∈ Event.split content :: levs, e.isMergeCall = false := by
  constructor
  · rw [run, if_neg hsys, if_neg hpt]
    simp only [if_pos hlen]
    rw [hloop]
  · intro e he
    rcases List.mem_cons.mp he with he | he
    · rw [he]; rfl
    · have := extractLoop_events_not_merge oracle cfg attributes (splitter content)
        none [] e
      rw [hloop] at this
      exact this he

/-- C4 (witness): instantiation at a three-window run whose stub oracle raises on
window 2 of 3: the run aborts with that failure, having called windows 1 and 2
only, and no merge call appears in the trace. -/
theorem c4_extraction_failure_aborts_run_witness :
    (¬cfg0.system_prompt = none) ∧ (¬cfg0.prompt_template = none) ∧
    (1 < (splitter3 "doc").length) ∧
    extractLoop failOracle cfg0 (some schema0) (splitter3 "doc") none [] =
      (.error (.modelError "boom"), [[recA]],
       [.model (extractCallOf cfg0 "w1" (some schema0) none),
        .model (extractCallOf cfg0 "w2" (some schema0) (some [recA]))]) ∧
    (run failOracle splitter3 cfg0 initState "doc" (some schema0) =
        (.error (.modelError "boom"),
         .split "doc" ::
           [.model (extractCallOf cfg0 "w1" (some schema0) none),
            .model (extractCallOf cfg0 "w2" (some schema0) (some [recA]))],
         ⟨some [[recA]]⟩) ∧
      ∀ e ∈ Event.split "doc" ::
          [Event.model (extractCallOf cfg0 "w1" (some schema0) none),
           Event.model (extractCallOf cfg0 "w2" (some schema0) (some [recA]))],
        e.isMergeCall = false) :=
  ⟨by decide, by decide, by decide, rfl,
   c4_extraction_failure_aborts_run failOracle splitter3 cfg0 initState "doc"
     (some schema0) (.modelError "boom") [[recA]]
     [.model (extractCallOf cfg0 "w1" (some schema0) none),
      .model (extractCallOf cfg0 "w2" (some schema0) (some [recA]))]
     (by decide) (by decide) (by decide) rfl⟩

/-- C3: a successful multi-window run extracts the windows strictly in document
order — each window's call is built from exactly the immediately preceding
window's PartialResult (the first from none), as `chainSpec` demands — the
PartialResults are accumulated in window order, the trace is the split followed by
the per-window extraction calls followed by a single merge call over the whole
ordered result sequence, and the run's output is that merge call's output. -/
theorem c3_sequential_then_single_merge
    (oracle : ModelCall → Except Err (List Record)) (splitter : String → List String)
    (cfg : Config) (st : RunState) (content : String) (attributes : Option Schema)
    (out : List Record) (evs : List Event) (st' : RunState)
    (hlen : 1 < (splitter content).length)
    (hrun : run oracle splitter cfg st content attributes = (.ok out, evs, st')) :
    ∃ results : List (List Record),
      results.length = (splitter content).length ∧
      chainSpec oracle cfg attributes (splitter content) none results ∧
      evs = .split content ::
        (chainEvents cfg attributes (splitter content) none results ++
          [.model (mergeCallOf results attributes)]) ∧
      oracle (mergeCallOf results attributes) = .ok out ∧
      st' = ⟨some results⟩ := by
  by_cases h1 : cfg.system_prompt = none
  · rw [run, if_pos h1] at hrun
    simp at hrun
  by_cases h2 : cfg.prompt_template = none
  · rw [run, if_neg h1, if_pos h2] at hrun
    simp at hrun
  rw [run, if_neg h1, if_neg h2] at hrun
  simp only [if_pos hlen] at hrun
  rcases hl : extractLoop oracle cfg attributes (splitter content) none [] with
    ⟨res, cd, levs⟩
  rw [hl] at hrun
  cases res with
  | error e => simp at hrun
  | ok all_data =>
    dsimp only [merge_all_data] at hrun
    simp only [Prod.mk.injEq] at hrun
    obtain ⟨hm, hevs, hst⟩ := hrun
    obtain ⟨rs, hall, hcd, hspec, hlevs⟩ :=
      extractLoop_ok oracle cfg attributes (splitter content) none [] all_data cd levs hl
    simp only [List.nil_append] at hall
    subst hall
    refine ⟨all_data, ?_, hspec, ?_, hm, ?_⟩
    · exact chainSpec_length oracle cfg attributes (splitter content) none all_data hspec
    · rw [← hevs, hlevs]
    · rw [← hst, hcd]

/-- C3 (witness): instantiation at a two-window run with a deterministic stub
oracle, exhibiting the chain, the ordered trace with its single trailing merge
call, and the persisted accumulated results. -/
theorem c3_sequential_then_single_merge_witness :
    (1 < (splitter2 "doc").length) ∧
    ∃ results : List (List Record),
      results.length = (splitter2 "doc").length ∧
      chainSpec stubOracle cfg0 (some schema0) (splitter2 "doc") none results ∧
      ([.split "doc",
        .model (extractCallOf cfg0 "w1" (some schema0) none),
        .model (extractCallOf cfg0 "w2" (some schema0) (some [recA])),
        .model (mergeCallOf [[recA], [recA]] (some schema0))] : List Event) =
        .split "doc" ::
          (chainEvents cfg0 (some schema0) (splitter2 "doc") none results ++
            [.model (mergeCallOf results (some schema0))]) ∧
      stubOracle (mergeCallOf results (some schema0)) = .ok [recA] ∧
      (⟨some [[recA], [recA]]⟩ : RunState) = ⟨some results⟩ :=
  ⟨by decide,
   c3_sequential_then_single_merge stubOracle splitter2 cfg0 initState "doc"
     (some schema0) [recA]
     [.split "doc",
      .model (extractCallOf cfg0 "w1" (some schema0) none),
      .model (extractCallOf cfg0 "w2" (some schema0) (some [recA])),
      .model (mergeCallOf [[recA], [recA]] (some schema0))]
     ⟨some [[recA], [recA]]⟩ (by decide) rfl⟩

end Parsera
